import Mathlib

/-!
# VaultShare access-control engine: verification development

This file embeds the access-control and view-tracking core of the
VaultShare repository and proves/refutes the frozen claims about it.

The repository under verification ships the Next.js frontend
(src/frontend/...) and the design documents (src/README.md,
src/CONSUMER_ACCESS_CONTROL.md); the Django backend that implements the
engine (validate/serve endpoints, AccessLog model, view counters) is not
part of the source tree.  Definitions below therefore come from two
places, each marked in its doc comment:

* frontend behaviour (public API client, files API client, response
  types) is embedded from the TypeScript source files;
* the backend engine is modelled from the specification (spec.md
  sections 3, 4 and 6), since only its documentation, callers and type
  declarations are in the tree.
-/

namespace VaultShare

/-- Modelled from the spec (section 3, "Consumer identity"): the accessing
party is either an authenticated user id or an anonymous IP-derived key.
The backend model that discriminates these is not in the source tree. -/
inductive Identity where
  | authenticated (id : Nat)
  | anonymous (ip : String)
  deriving DecidableEq

/-- Is the identity anonymous? -/
def Identity.isAnonymous : Identity → Bool
  | .authenticated _ => false
  | .anonymous _ => true

/-- Access methods recorded in the ledger (spec section 3,
AccessLogEntry.method, and src/frontend/types/index.ts AccessLog). -/
inductive Method where
  | view
  | download
  | validate
  deriving DecidableEq

/-- Detail distinguishing the two password-denial cases
(spec section 6: password_required(401, detail: missing|incorrect)). -/
inductive PasswordDetail where
  | missing
  | incorrect
  deriving DecidableEq

/-- Modelled from the spec (sections 4.1 and 6): one tagged denial reason
per ordered policy check, plus the download-policy rejection of
section 4.3 step 5. -/
inductive DenialReason where
  | notFound
  | inactive
  | expired
  | quotaExhausted
  | passwordRequired (detail : PasswordDetail)
  | signinRequired
  | consumerQuotaExhausted
  | downloadDisabled
  deriving DecidableEq

/-- The denial class with the password detail erased: both password
denials belong to one user-facing class (spec section 4.1 check 5). -/
inductive DenialClass where
  | notFound
  | inactive
  | expired
  | quotaExhausted
  | passwordRequired
  | signinRequired
  | consumerQuotaExhausted
  | downloadDisabled
  deriving DecidableEq

/-- Collapse a denial reason to its class. -/
def reasonClass : DenialReason → DenialClass
  | .notFound => .notFound
  | .inactive => .inactive
  | .expired => .expired
  | .quotaExhausted => .quotaExhausted
  | .passwordRequired _ => .passwordRequired
  | .signinRequired => .signinRequired
  | .consumerQuotaExhausted => .consumerQuotaExhausted
  | .downloadDisabled => .downloadDisabled

/-- Modelled from the spec (section 6): HTTP status for each denial
reason.  The spec gives no code for the download-disabled policy
rejection; 403 is used, matching the other policy denials. -/
def httpStatus : DenialReason → Nat
  | .notFound => 404
  | .inactive => 403
  | .expired => 410
  | .quotaExhausted => 403
  | .passwordRequired _ => 401
  | .signinRequired => 401
  | .consumerQuotaExhausted => 403
  | .downloadDisabled => 403

/-- The "incorrect" hint carried by a password denial: omitted when the
password was not supplied, present when it was wrong (spec section 4.1
check 5). -/
def passwordHint : PasswordDetail → Option String
  | .missing => none
  | .incorrect => some "incorrect"

/-- Modelled from the spec (section 3, ArtifactRecord) combined with the
metadata fields of the source FileUpload type
(src/frontend/types/index.ts).  Timestamps and durations are seconds as
naturals.  The backend model class itself is not in the source tree. -/
structure ArtifactRecord where
  token : String
  active : Bool
  createdAt : Nat
  expiresAt : Option Nat
  maxViews : Nat
  currentViews : Nat
  passwordHash : Option String
  disableDownload : Bool
  sessionWindow : Nat
  requireSignin : Bool
  maxViewsPerConsumer : Nat
  deleted : Bool
  id : String
  originalFilename : String
  fileSize : Nat
  fileSizeFormatted : String
  contentType : String
  deriving DecidableEq

/-- Modelled from the spec (section 3, AccessLogEntry): one row per
access attempt, append-only. -/
structure AccessLogEntry where
  artifact : String
  timestamp : Nat
  identity : Identity
  method : Method
  granted : Bool
  reason : Option DenialReason
  deriving DecidableEq

/-- The durable state the engine reads and writes: the artifact store and
the append-only ledger (spec section 5, shared-resource policy). -/
structure EngineState where
  artifacts : List ArtifactRecord
  ledger : List AccessLogEntry

/-- Modelled from the spec (section 4.1 check 1): resolve a token to its
artifact; unknown tokens and soft-deleted artifacts resolve to none. -/
def resolveArtifact (l : List ArtifactRecord) (tok : String) : Option ArtifactRecord :=
  match l.find? (fun a => a.token == tok) with
  | none => none
  | some a => if a.deleted then none else some a

/-- Modelled from the spec (section 4.1 check 3): is the expiry of the artifact in the past at time now? -/
def expiredAt (art : ArtifactRecord) (now : Nat) : Bool :=
  match art.expiresAt with
  | none => false
  | some t => t < now

/-- Modelled from the spec (section 4.1 check 5): password verification
outcome.  vf is the black-box verify(plaintext, hash) collaborator.
Returns the failure detail, or none when no password is required or the
supplied password verifies. -/
def passwordFails (vf : String → String → Bool) (art : ArtifactRecord)
    (pw : Option String) : Option PasswordDetail :=
  match art.passwordHash, pw with
  | none, _ => none
  | some _, none => some .missing
  | some h, some p => if vf p h then none else some .incorrect

/-- Does this ledger entry count toward the view total of a consumer
(spec section 4.4: granted, method in view/download, matching pair)? -/
def countsForConsumer (e : AccessLogEntry) (tok : String) (who : Identity) : Bool :=
  e.artifact == tok && e.identity == who && e.granted &&
    (e.method == .view || e.method == .download)

/-- Modelled from the spec (section 4.4, QuotaEnforcer): count of ledger
rows for (artifact, identity) with granted=true and method in
view/download. -/
def consumerViewCount (ledger : List AccessLogEntry) (tok : String)
    (who : Identity) : Nat :=
  (ledger.filter (fun e => countsForConsumer e tok who)).length

/-- Modelled from the spec (section 4.4):
max_views_per_consumer > 0 and consumerViewCount >= max_views_per_consumer. -/
def hasConsumerExceededLimit (art : ArtifactRecord)
    (ledger : List AccessLogEntry) (who : Identity) : Bool :=
  decide (0 < art.maxViewsPerConsumer) &&
    decide (art.maxViewsPerConsumer ≤ consumerViewCount ledger art.token who)

/-- Does this ledger entry witness an active session for (artifact,
identity) at time now (spec section 4.2: granted, method in
view/download, timestamp >= now - session_window)?  The timestamp
comparison is written overflow-safely as now <= timestamp + window. -/
def sessionEntry (e : AccessLogEntry) (tok : String) (who : Identity)
    (window now : Nat) : Bool :=
  e.artifact == tok && e.identity == who && e.granted &&
    (e.method == .view || e.method == .download) &&
    decide (now ≤ e.timestamp + window)

/-- Modelled from the spec (section 4.2, SessionResolver): a pure query
over the ledger, no separate session state. -/
def isWithinActiveSession (ledger : List AccessLogEntry)
    (art : ArtifactRecord) (who : Identity) (now : Nat) : Bool :=
  ledger.any (fun e => sessionEntry e art.token who art.sessionWindow now)

/-- Modelled from the spec (section 4.1): the ordered policy checks 2-7
run against a resolved artifact, first failure wins, pure.  Check 1
(resolution) lives in resolveArtifact. -/
def checkPolicy (vf : String → String → Bool) (ledger : List AccessLogEntry)
    (art : ArtifactRecord) (pw : Option String) (who : Identity)
    (now : Nat) : Option DenialReason :=
  if art.active = false then some .inactive
  else if expiredAt art now then some .expired
  else if art.maxViews ≤ art.currentViews then some .quotaExhausted
  else
    match passwordFails vf art pw with
    | some d => some (.passwordRequired d)
    | none =>
      if art.requireSignin && who.isAnonymous then some .signinRequired
      else if hasConsumerExceededLimit art ledger who then some .consumerQuotaExhausted
      else none

/-- Modelled from the spec (section 4.1): the full validation verdict,
resolution first, then the ordered checks.  none means granted. -/
def validateResult (vf : String → String → Bool) (s : EngineState)
    (tok : String) (pw : Option String) (who : Identity) (now : Nat) :
    Option DenialReason :=
  match resolveArtifact s.artifacts tok with
  | none => some .notFound
  | some art => checkPolicy vf s.ledger art pw who now

/-- From src/frontend/types/index.ts: the file object inside
FileAccessResponse.  time_remaining is a display string in the source;
it is modelled as remaining seconds. -/
structure FileAccessFileInfo where
  id : String
  original_filename : String
  file_size : Nat
  file_size_formatted : String
  content_type : String
  expires_at : Option Nat
  time_remaining : Nat
  max_views : Nat
  current_views : Nat
  views_remaining : Nat
  disable_download : Bool
  created_at : Nat
  deriving DecidableEq

/-- From src/frontend/types/index.ts: the successful validate response
consumed by the frontend (fields success, file, password_required). -/
structure FileAccessResponse where
  success : Bool
  file : FileAccessFileInfo
  password_required : Bool
  deriving DecidableEq

/-- Remaining lifetime of the artifact at time now, in seconds. -/
def timeRemaining (art : ArtifactRecord) (now : Nat) : Nat :=
  match art.expiresAt with
  | none => 0
  | some t => t - now

/-- The successful validate payload, built from the artifact alone,
with the field set of the source FileAccessResponse declaration. -/
def buildFileAccessResponse (art : ArtifactRecord) (now : Nat) : FileAccessResponse :=
  { success := true
    file :=
      { id := art.id
        original_filename := art.originalFilename
        file_size := art.fileSize
        file_size_formatted := art.fileSizeFormatted
        content_type := art.contentType
        expires_at := art.expiresAt
        time_remaining := timeRemaining art now
        max_views := art.maxViews
        current_views := art.currentViews
        views_remaining := art.maxViews - art.currentViews
        disable_download := art.disableDownload
        created_at := art.createdAt }
    password_required := art.passwordHash.isSome }

/-- Outcome of a validate call: the read-only summary or a denial. -/
inductive ValidationOutcome where
  | granted (resp : FileAccessResponse)
  | denied (r : DenialReason)
  deriving DecidableEq

/-- Was the validation granted? -/
def ValidationOutcome.isGranted : ValidationOutcome → Bool
  | .granted _ => true
  | .denied _ => false

/-- A ledger row under construction. -/
def mkEntry (tok : String) (now : Nat) (who : Identity) (m : Method)
    (granted : Bool) (reason : Option DenialReason) : AccessLogEntry :=
  { artifact := tok, timestamp := now, identity := who, method := m
    granted := granted, reason := reason }

/-- Append one row to the ledger; the artifact store is untouched. -/
def appendLog (s : EngineState) (e : AccessLogEntry) : EngineState :=
  { s with ledger := e :: s.ledger }

/-- Modelled from the spec (section 4.1): the validate operation.  It
runs resolution and the ordered checks, logs the attempt with
method=validate, and never touches the artifact store. -/
def validateOp (vf : String → String → Bool) (s : EngineState)
    (tok : String) (pw : Option String) (who : Identity) (now : Nat) :
    ValidationOutcome × EngineState :=
  match resolveArtifact s.artifacts tok with
  | none =>
      (.denied .notFound, appendLog s (mkEntry tok now who .validate false (some .notFound)))
  | some art =>
      match checkPolicy vf s.ledger art pw who now with
      | some r =>
          (.denied r, appendLog s (mkEntry tok now who .validate false (some r)))
      | none =>
          (.granted (buildFileAccessResponse art now),
           appendLog s (mkEntry tok now who .validate true none))

/-- Modelled from the spec (section 4.3 step 5): the short-lived capability
issued on a successful grant.  Its lifetime is a fixed short
constant, independent of the expiry of the artifact itself. -/
structure Capability where
  token : String
  method : Method
  issuedAt : Nat
  expiresIn : Nat
  deriving DecidableEq

/-- The capability issued for one successful grant. -/
def capabilityFor (tok : String) (m : Method) (now : Nat) : Capability :=
  { token := tok, method := m, issuedAt := now, expiresIn := 300 }

/-- Outcome of a grant call: granted (with the session-hit flag of the
state machine in the spec and the issued capability) or denied. -/
inductive GrantOutcome where
  | granted (sessionHit : Bool) (cap : Capability)
  | denied (r : DenialReason)
  deriving DecidableEq

/-- Was the grant granted? -/
def GrantOutcome.isGranted : GrantOutcome → Bool
  | .granted _ _ => true
  | .denied _ => false

/-- Modelled from the spec (sections 4.1 and 4.3 step 5): the policy
check set re-run inside grant.  The ordered checks 1-7 come first; when
they all pass, the download method is additionally rejected when
disable_download is set — a policy check at the same stage, before any
session resolution or counter mutation. -/
def grantPolicy (vf : String → String → Bool) (ledger : List AccessLogEntry)
    (art : ArtifactRecord) (pw : Option String) (who : Identity)
    (now : Nat) (m : Method) : Option DenialReason :=
  match checkPolicy vf ledger art pw who now with
  | some r => some r
  | none => if m == .download && art.disableDownload then some .downloadDisabled else none

/-- Modelled from the spec (section 4.3 step 3 and section 5): the
atomic "increment if below ceiling" primitive of the store, applied per row:
the row for the token is incremented only when its counter is still
below its ceiling. -/
def condBump (a : ArtifactRecord) : ArtifactRecord :=
  if a.currentViews < a.maxViews then { a with currentViews := a.currentViews + 1 } else a

/-- One row of the conditional update: only the row with the token is
touched. -/
def bumpRow (tok : String) (a : ArtifactRecord) : ArtifactRecord :=
  if a.token == tok then condBump a else a

/-- The artifact store after the conditional increment for one token. -/
def bumpList (l : List ArtifactRecord) (tok : String) : List ArtifactRecord :=
  l.map (bumpRow tok)

/-- The engine state after the conditional increment for one token. -/
def bumpViews (s : EngineState) (tok : String) : EngineState :=
  { s with artifacts := bumpList s.artifacts tok }

/-- Modelled from the spec (section 4.3, AccessServicer state machine):
grant re-runs the full check set, resolves the session, and either logs
a granted session hit without incrementing, atomically increments and
logs a counted new view, or denies with quota_exhausted when the
increment guard fails; every denial is logged. -/
def grantOp (vf : String → String → Bool) (s : EngineState) (tok : String)
    (pw : Option String) (who : Identity) (now : Nat) (m : Method) :
    GrantOutcome × EngineState :=
  match resolveArtifact s.artifacts tok with
  | none =>
      (.denied .notFound, appendLog s (mkEntry tok now who m false (some .notFound)))
  | some art =>
      match grantPolicy vf s.ledger art pw who now m with
      | some r =>
          (.denied r, appendLog s (mkEntry tok now who m false (some r)))
      | none =>
          if isWithinActiveSession s.ledger art who now then
            (.granted true (capabilityFor tok m now),
             appendLog s (mkEntry tok now who m true none))
          else if art.currentViews < art.maxViews then
            (.granted false (capabilityFor tok m now),
             appendLog (bumpViews s tok) (mkEntry tok now who m true none))
          else
            (.denied .quotaExhausted,
             appendLog s (mkEntry tok now who m false (some .quotaExhausted)))

/-- One engine operation: a validate or a grant call with arbitrary
arguments (the grant methods cover serve, view and download). -/
inductive Step : EngineState → EngineState → Prop where
  | validate (vf : String → String → Bool) (s : EngineState) (tok : String)
      (pw : Option String) (who : Identity) (now : Nat) :
      Step s (validateOp vf s tok pw who now).2
  | grant (vf : String → String → Bool) (s : EngineState) (tok : String)
      (pw : Option String) (who : Identity) (now : Nat) (m : Method) :
      Step s (grantOp vf s tok pw who now m).2

/-- Reachability under any finite sequence of engine operations. -/
def Reachable : EngineState → EngineState → Prop :=
  Relation.ReflTransGen Step

/-- The global view-quota invariant (spec section 3):
current_views <= max_views for every artifact in the store. -/
def viewsInv (l : List ArtifactRecord) : Prop :=
  ∀ a ∈ l, a.currentViews ≤ a.maxViews

/-- Following the words of claim C3: the seven checks as an ordered list
of (failed?, reason) pairs for a resolved artifact. -/
def orderedChecks (vf : String → String → Bool) (ledger : List AccessLogEntry)
    (art : ArtifactRecord) (pw : Option String) (who : Identity)
    (now : Nat) : List (Bool × DenialReason) :=
  [ (!art.active, .inactive)
  , (expiredAt art now, .expired)
  , (decide (art.currentViews ≥ art.maxViews), .quotaExhausted)
  , ((passwordFails vf art pw).isSome,
      .passwordRequired ((passwordFails vf art pw).getD .missing))
  , (art.requireSignin && who.isAnonymous, .signinRequired)
  , (hasConsumerExceededLimit art ledger who, .consumerQuotaExhausted) ]

/-- First failing check wins; later checks are not consulted. -/
def firstFailure : List (Bool × DenialReason) → Option DenialReason
  | [] => none
  | (b, r) :: rest => if b then some r else firstFailure rest

/-- Following the words of claim C3: unknown or soft-deleted tokens fail
with NotFound, otherwise the first failing check of the ordered list
determines the denial. -/
def specOrderedValidate (vf : String → String → Bool) (s : EngineState)
    (tok : String) (pw : Option String) (who : Identity) (now : Nat) :
    Option DenialReason :=
  match resolveArtifact s.artifacts tok with
  | none => some .notFound
  | some art => firstFailure (orderedChecks vf s.ledger art pw who now)

/-- A sequence of validate calls (arguments of one call each). -/
structure ValidateCall where
  tok : String
  pw : Option String
  who : Identity
  now : Nat

/-- Run a list of validate calls in order, threading the state. -/
def applyValidates (vf : String → String → Bool) (calls : List ValidateCall)
    (s : EngineState) : EngineState :=
  calls.foldl (fun st c => (validateOp vf st c.tok c.pw c.who c.now).2) s

/-- From src/frontend/types/index.ts: the body of a public access
request (FileAccessRequest). -/
structure FileAccessRequestT where
  access_token : String
  password : Option String
  deriving DecidableEq

/-- The shape of an outgoing HTTP request as far as the claims care:
target URL, JSON body and the optional Authorization header value. -/
structure HttpRequest where
  url : String
  body : FileAccessRequestT
  authorization : Option String
  deriving DecidableEq

/-- From src/frontend/lib/store.ts and lib/api.ts: the browser-local
token storage read by the interceptor of the authenticated client. -/
structure ClientStorage where
  access_token : Option String
  refresh_token : Option String
  deriving DecidableEq

/-- From src/frontend/lib/api.ts (request interceptor on the authed
client): attach a Bearer token from storage when one is present. -/
def authedRequestOf (st : ClientStorage) (base path : String)
    (d : FileAccessRequestT) : HttpRequest :=
  match st.access_token with
  | some t => { url := base ++ path, body := d, authorization := some ("Bearer " ++ t) }
  | none => { url := base ++ path, body := d, authorization := none }

/-- From src/frontend/lib/api.ts (publicAPI.validate): a bare axios.post
with no interceptor — the ambient token storage st is never read and no
Authorization header is attached. -/
def publicValidateRequest (_st : ClientStorage) (base : String)
    (d : FileAccessRequestT) : HttpRequest :=
  { url := base ++ "/access/validate/", body := d, authorization := none }

/-- From src/frontend/lib/api.ts (publicAPI.view): same bare client. -/
def publicViewRequest (_st : ClientStorage) (base : String)
    (d : FileAccessRequestT) : HttpRequest :=
  { url := base ++ "/access/view/", body := d, authorization := none }

/-- From src/frontend/lib/api.ts (publicAPI.download): same bare client. -/
def publicDownloadRequest (_st : ClientStorage) (base : String)
    (d : FileAccessRequestT) : HttpRequest :=
  { url := base ++ "/access/download/", body := d, authorization := none }

/-- Modelled from the spec (sections 2 and 6: identity is supplied by the
calling context — an authenticated principal resolved from credentials,
or the source IP).  look resolves a bearer token to a user id. -/
def identityOfRequest (look : String → Option Nat) (r : HttpRequest)
    (ip : String) : Identity :=
  match r.authorization with
  | none => .anonymous ip
  | some bearer =>
      match look bearer with
      | some uid => .authenticated uid
      | none => .anonymous ip

/-- A JavaScript runtime value, as far as filesAPI.list inspects one. -/
inductive JsVal where
  | null
  | undefined
  | bool (b : Bool)
  | num (n : Int)
  | str (s : String)
  | arr (xs : List JsVal)
  | obj (fields : List (String × JsVal))

/-- JavaScript truthiness of a value. -/
def truthy : JsVal → Bool
  | .null => false
  | .undefined => false
  | .bool b => b
  | .num n => n != 0
  | .str s => s != ""
  | .arr _ => true
  | .obj _ => true

/-- Does `typeof v` evaluate to the string "object"?  True for objects,
arrays and null. -/
def typeofObject : JsVal → Bool
  | .null => true
  | .arr _ => true
  | .obj _ => true
  | _ => false

/-- The JavaScript `in` operator for a named property: only objects
carry named properties in the values reachable here. -/
def hasKey : JsVal → String → Bool
  | .obj fields, k => fields.any (fun f => f.1 == k)
  | _, _ => false

/-- Property read `v[k]`; absent properties read as undefined. -/
def getKey : JsVal → String → JsVal
  | .obj fields, k =>
      match fields.find? (fun f => f.1 == k) with
      | some f => f.2
      | none => .undefined
  | _, _ => .undefined

/-- Array.isArray. -/
def isArray : JsVal → Bool
  | .arr _ => true
  | _ => false

/-- The elements of an array value (empty for non-arrays). -/
def asArray : JsVal → List JsVal
  | .arr xs => xs
  | _ => []

/-- From src/frontend/lib/api.ts (filesAPI.list), the branch on the
response body: an object with a results field yields that field when it
is an array and the empty array otherwise; otherwise a direct array
body is returned as is, and anything else yields the empty array. -/
def filesListOfData (data : JsVal) : List JsVal :=
  if truthy data && typeofObject data && hasKey data "results" then
    if isArray (getKey data "results") then asArray (getKey data "results") else []
  else if isArray data then asArray data else []

/-- From src/frontend/lib/api.ts (filesAPI.list): the whole call is
wrapped in try/catch, a failed request resolves with the empty array. -/
def filesList (resp : Except String JsVal) : List JsVal :=
  match resp with
  | .error _ => []
  | .ok data => filesListOfData data

/-- A concrete verify collaborator for witnesses: plaintext equals hash. -/
def cVf : String → String → Bool := fun p h => p == h

/-- Witness artifact: one view allowed and already consumed, a granted
view for the anonymous identity 9.9.9.9 at time 0 in the ledger. -/
def c2Art : ArtifactRecord :=
  { token := "t0", active := true, createdAt := 0, expiresAt := none
    maxViews := 1, currentViews := 1, passwordHash := none
    disableDownload := false, sessionWindow := 900, requireSignin := false
    maxViewsPerConsumer := 0, deleted := false, id := "f0"
    originalFilename := "a.pdf", fileSize := 10, fileSizeFormatted := "10 B"
    contentType := "application/pdf" }

/-- Witness state for the exhausted-artifact scenarios. -/
def c2State : EngineState :=
  { artifacts := [c2Art]
    ledger := [{ artifact := "t0", timestamp := 0
                 identity := .anonymous "9.9.9.9", method := .view
                 granted := true, reason := none }] }

/-- Witness artifact for the validate-response claims: password-free,
plenty of quota, a per-consumer limit of 3. -/
def c7Art : ArtifactRecord :=
  { token := "t7", active := true, createdAt := 0, expiresAt := some 10000
    maxViews := 10, currentViews := 2, passwordHash := none
    disableDownload := false, sessionWindow := 900, requireSignin := true
    maxViewsPerConsumer := 3, deleted := false, id := "f7"
    originalFilename := "b.pdf", fileSize := 20, fileSizeFormatted := "20 B"
    contentType := "application/pdf" }

/-- State with no consumer activity yet for c7Art. -/
def c7StateA : EngineState := { artifacts := [c7Art], ledger := [] }

/-- State with one granted view by user 7 for c7Art. -/
def c7StateB : EngineState :=
  { artifacts := [c7Art]
    ledger := [{ artifact := "t7", timestamp := 0
                 identity := .authenticated 7, method := .view
                 granted := true, reason := none }] }

/-- Witness artifact for the password claims. -/
def c6Art : ArtifactRecord :=
  { token := "t6", active := true, createdAt := 0, expiresAt := none
    maxViews := 5, currentViews := 0, passwordHash := some "secret"
    disableDownload := false, sessionWindow := 900, requireSignin := false
    maxViewsPerConsumer := 0, deleted := false, id := "f6"
    originalFilename := "c.pdf", fileSize := 30, fileSizeFormatted := "30 B"
    contentType := "application/pdf" }

/-- Witness state for the password claims. -/
def c6State : EngineState := { artifacts := [c6Art], ledger := [] }

/-- Witness artifact with downloads disabled. -/
def c8Art : ArtifactRecord :=
  { token := "t8", active := true, createdAt := 0, expiresAt := none
    maxViews := 5, currentViews := 0, passwordHash := none
    disableDownload := true, sessionWindow := 900, requireSignin := false
    maxViewsPerConsumer := 0, deleted := false, id := "f8"
    originalFilename := "d.pdf", fileSize := 40, fileSizeFormatted := "40 B"
    contentType := "application/pdf" }

/-- Witness state for the download-disabled claims. -/
def c8State : EngineState := { artifacts := [c8Art], ledger := [] }

/-- Witness artifact requiring sign-in, for the public-client claims. -/
def c9Art : ArtifactRecord :=
  { token := "t9", active := true, createdAt := 0, expiresAt := none
    maxViews := 5, currentViews := 0, passwordHash := none
    disableDownload := false, sessionWindow := 900, requireSignin := true
    maxViewsPerConsumer := 0, deleted := false, id := "f9"
    originalFilename := "e.pdf", fileSize := 50, fileSizeFormatted := "50 B"
    contentType := "application/pdf" }

/-- Witness state for the public-client claims. -/
def c9State : EngineState := { artifacts := [c9Art], ledger := [] }

theorem validateOp_artifacts (vf : String → String → Bool) (s : EngineState)
    (tok : String) (pw : Option String) (who : Identity) (now : Nat) :
    (validateOp vf s tok pw who now).2.artifacts = s.artifacts := by
  cases hres : resolveArtifact s.artifacts tok with
  | none => simp [validateOp, hres, appendLog]
  | some art =>
      cases hc : checkPolicy vf s.ledger art pw who now with
      | none => simp [validateOp, hres, hc, appendLog]
      | some r => simp [validateOp, hres, hc, appendLog]

theorem applyValidates_artifacts (vf : String → String → Bool)
    (calls : List ValidateCall) (s : EngineState) :
    (applyValidates vf calls s).artifacts = s.artifacts := by
  induction calls generalizing s with
  | nil => rfl
  | cons c cs ih =>
      show (applyValidates vf cs (validateOp vf s c.tok c.pw c.who c.now).2).artifacts = _
      rw [ih, validateOp_artifacts]

theorem condBump_token (a : ArtifactRecord) : (condBump a).token = a.token := by
  unfold condBump; split <;> rfl

theorem condBump_deleted (a : ArtifactRecord) : (condBump a).deleted = a.deleted := by
  unfold condBump; split <;> rfl

theorem bumpRow_token (tok : String) (a : ArtifactRecord) :
    (bumpRow tok a).token = a.token := by
  unfold bumpRow; split
  · exact condBump_token a
  · rfl

theorem bumpRow_deleted (tok : String) (a : ArtifactRecord) :
    (bumpRow tok a).deleted = a.deleted := by
  unfold bumpRow; split
  · exact condBump_deleted a
  · rfl

theorem bumpRow_exhausted (tokG : String) (a : ArtifactRecord)
    (hx : a.maxViews ≤ a.currentViews) : bumpRow tokG a = a := by
  have hlt : ¬ a.currentViews < a.maxViews := by omega
  unfold bumpRow condBump
  rw [if_neg hlt]
  split <;> rfl

theorem find?_bumpList (l : List ArtifactRecord) (tok tokG : String) :
    (bumpList l tokG).find? (fun a => a.token == tok)
      = (l.find? (fun a => a.token == tok)).map (bumpRow tokG) := by
  have hp : ((fun a : ArtifactRecord => a.token == tok) ∘ bumpRow tokG)
      = fun a : ArtifactRecord => a.token == tok := by
    funext a
    simp [Function.comp, bumpRow_token]
  rw [bumpList, List.find?_map, hp]

theorem resolveArtifact_bumpList (l : List ArtifactRecord) (tok tokG : String)
    (art : ArtifactRecord) (h : resolveArtifact l tok = some art) :
    resolveArtifact (bumpList l tokG) tok = some (bumpRow tokG art) := by
  unfold resolveArtifact at h ⊢
  rw [find?_bumpList]
  cases hf : l.find? (fun a => a.token == tok) with
  | none => simp [hf] at h
  | some a =>
      simp only [hf] at h
      by_cases hd : a.deleted = true
      · simp [hd] at h
      · rw [if_neg hd] at h
        have ha : a = art := Option.some_injective _ h
        subst ha
        show (if (bumpRow tokG a).deleted = true then none else some (bumpRow tokG a))
          = some (bumpRow tokG a)
        rw [bumpRow_deleted]
        exact if_neg hd

theorem viewsInv_bumpList (l : List ArtifactRecord) (tokG : String)
    (h : viewsInv l) : viewsInv (bumpList l tokG) := by
  intro a ha
  simp only [bumpList, List.mem_map] at ha
  obtain ⟨b, hb, rfl⟩ := ha
  have hble := h b hb
  unfold bumpRow condBump
  split
  · split
    · next hlt => show b.currentViews + 1 ≤ b.maxViews; omega
    · exact hble
  · exact hble

theorem checkPolicy_none_iff (vf : String → String → Bool)
    (ledger : List AccessLogEntry) (art : ArtifactRecord) (pw : Option String)
    (who : Identity) (now : Nat) :
    checkPolicy vf ledger art pw who now = none ↔
      art.active = true ∧ expiredAt art now = false ∧
      art.currentViews < art.maxViews ∧ passwordFails vf art pw = none ∧
      (art.requireSignin && who.isAnonymous) = false ∧
      hasConsumerExceededLimit art ledger who = false := by
  unfold checkPolicy
  cases hpw : passwordFails vf art pw <;>
    split_ifs with h1 h2 h3 <;>
      simp_all [Nat.not_le, Bool.not_eq_true]

theorem checkPolicy_none_views {vf : String → String → Bool}
    {ledger : List AccessLogEntry} {art : ArtifactRecord} {pw : Option String}
    {who : Identity} {now : Nat}
    (h : checkPolicy vf ledger art pw who now = none) :
    art.currentViews < art.maxViews :=
  ((checkPolicy_none_iff vf ledger art pw who now).mp h).2.2.1

theorem checkPolicy_exhausted {vf : String → String → Bool}
    {ledger : List AccessLogEntry} {art : ArtifactRecord} {pw : Option String}
    {who : Identity} {now : Nat} (hx : art.maxViews ≤ art.currentViews) :
    checkPolicy vf ledger art pw who now ≠ none := by
  intro h
  have := checkPolicy_none_views h
  omega

theorem checkPolicy_signin {vf : String → String → Bool}
    {ledger : List AccessLogEntry} {art : ArtifactRecord} {pw : Option String}
    {who : Identity} {now : Nat} (hs : art.requireSignin = true)
    (ha : who.isAnonymous = true) :
    checkPolicy vf ledger art pw who now ≠ none := by
  intro h
  have := ((checkPolicy_none_iff vf ledger art pw who now).mp h).2.2.2.2.1
  rw [hs, ha] at this
  simp at this

theorem grantPolicy_of_check_some {vf : String → String → Bool}
    {ledger : List AccessLogEntry} {art : ArtifactRecord} {pw : Option String}
    {who : Identity} {now : Nat} {m : Method} {r : DenialReason}
    (h : checkPolicy vf ledger art pw who now = some r) :
    grantPolicy vf ledger art pw who now m = some r := by
  unfold grantPolicy
  rw [h]

theorem checkPolicy_of_grantPolicy_none {vf : String → String → Bool}
    {ledger : List AccessLogEntry} {art : ArtifactRecord} {pw : Option String}
    {who : Identity} {now : Nat} {m : Method}
    (h : grantPolicy vf ledger art pw who now m = none) :
    checkPolicy vf ledger art pw who now = none := by
  unfold grantPolicy at h
  cases hc : checkPolicy vf ledger art pw who now with
  | none => rfl
  | some r => rw [hc] at h; exact absurd h (by simp)

theorem grantPolicy_view (vf : String → String → Bool)
    (ledger : List AccessLogEntry) (art : ArtifactRecord) (pw : Option String)
    (who : Identity) (now : Nat) :
    grantPolicy vf ledger art pw who now .view
      = checkPolicy vf ledger art pw who now := by
  unfold grantPolicy
  cases hc : checkPolicy vf ledger art pw who now <;> simp

theorem grantOp_notFound {s : EngineState} {tok : String}
    (vf : String → String → Bool) (pw : Option String) (who : Identity)
    (now : Nat) (m : Method) (hres : resolveArtifact s.artifacts tok = none) :
    grantOp vf s tok pw who now m
      = (.denied .notFound, appendLog s (mkEntry tok now who m false (some .notFound))) := by
  simp [grantOp, hres]

theorem grantOp_denied_of_policy {vf : String → String → Bool}
    {s : EngineState} {tok : String} {pw : Option String} {who : Identity}
    {now : Nat} {m : Method} {art : ArtifactRecord} {r : DenialReason}
    (hres : resolveArtifact s.artifacts tok = some art)
    (hp : grantPolicy vf s.ledger art pw who now m = some r) :
    grantOp vf s tok pw who now m
      = (.denied r, appendLog s (mkEntry tok now who m false (some r))) := by
  simp [grantOp, hres, hp]

theorem grantOp_sessionHit {vf : String → String → Bool}
    {s : EngineState} {tok : String} {pw : Option String} {who : Identity}
    {now : Nat} {m : Method} {art : ArtifactRecord}
    (hres : resolveArtifact s.artifacts tok = some art)
    (hp : grantPolicy vf s.ledger art pw who now m = none)
    (hs : isWithinActiveSession s.ledger art who now = true) :
    grantOp vf s tok pw who now m
      = (.granted true (capabilityFor tok m now),
         appendLog s (mkEntry tok now who m true none)) := by
  simp [grantOp, hres, hp, hs]

theorem grantOp_countedNew {vf : String → String → Bool}
    {s : EngineState} {tok : String} {pw : Option String} {who : Identity}
    {now : Nat} {m : Method} {art : ArtifactRecord}
    (hres : resolveArtifact s.artifacts tok = some art)
    (hp : grantPolicy vf s.ledger art pw who now m = none)
    (hs : isWithinActiveSession s.ledger art who now = false) :
    grantOp vf s tok pw who now m
      = (.granted false (capabilityFor tok m now),
         appendLog (bumpViews s tok) (mkEntry tok now who m true none)) := by
  have hv : art.currentViews < art.maxViews :=
    checkPolicy_none_views (checkPolicy_of_grantPolicy_none hp)
  simp [grantOp, hres, hp, hs, hv]

theorem validateOp_denied_of_check {vf : String → String → Bool}
    {s : EngineState} {tok : String} {pw : Option String} {who : Identity}
    {now : Nat} {art : ArtifactRecord} {r : DenialReason}
    (hres : resolveArtifact s.artifacts tok = some art)
    (hc : checkPolicy vf s.ledger art pw who now = some r) :
    validateOp vf s tok pw who now
      = (.denied r, appendLog s (mkEntry tok now who .validate false (some r))) := by
  simp [validateOp, hres, hc]

theorem validateOp_granted_of_check {vf : String → String → Bool}
    {s : EngineState} {tok : String} {pw : Option String} {who : Identity}
    {now : Nat} {art : ArtifactRecord}
    (hres : resolveArtifact s.artifacts tok = some art)
    (hc : checkPolicy vf s.ledger art pw who now = none) :
    validateOp vf s tok pw who now
      = (.granted (buildFileAccessResponse art now),
         appendLog s (mkEntry tok now who .validate true none)) := by
  simp [validateOp, hres, hc]

theorem grantOp_artifacts_cases (vf : String → String → Bool) (s : EngineState)
    (tok : String) (pw : Option String) (who : Identity) (now : Nat)
    (m : Method) :
    (grantOp vf s tok pw who now m).2.artifacts = s.artifacts ∨
      ((grantOp vf s tok pw who now m).1 = .granted false (capabilityFor tok m now) ∧
       (grantOp vf s tok pw who now m).2.artifacts = bumpList s.artifacts tok) := by
  cases hres : resolveArtifact s.artifacts tok with
  | none => left; rw [grantOp_notFound vf pw who now m hres]; rfl
  | some art =>
      cases hp : grantPolicy vf s.ledger art pw who now m with
      | some r => left; rw [grantOp_denied_of_policy hres hp]; rfl
      | none =>
          by_cases hs : isWithinActiveSession s.ledger art who now
          · left; rw [grantOp_sessionHit hres hp hs]; rfl
          · right
            rw [grantOp_countedNew hres hp (Bool.eq_false_iff.mpr hs)]
            exact ⟨rfl, rfl⟩

theorem step_viewsInv {s s' : EngineState} (h : Step s s')
    (hv : viewsInv s.artifacts) : viewsInv s'.artifacts := by
  cases h with
  | validate vf s tok pw who now =>
      rw [validateOp_artifacts]; exact hv
  | grant vf s tok pw who now m =>
      rcases grantOp_artifacts_cases vf s tok pw who now m with hc | ⟨_, hc⟩
      · rw [hc]; exact hv
      · rw [hc]; exact viewsInv_bumpList s.artifacts tok hv

theorem reachable_viewsInv {s0 s : EngineState} (h : Reachable s0 s)
    (hv : viewsInv s0.artifacts) : viewsInv s.artifacts := by
  induction h with
  | refl => exact hv
  | tail _ hstep ih => exact step_viewsInv hstep ih

theorem step_preserves_exhausted {s s' : EngineState} {tok : String}
    {art : ArtifactRecord} (hres : resolveArtifact s.artifacts tok = some art)
    (hx : art.maxViews ≤ art.currentViews) (h : Step s s') :
    resolveArtifact s'.artifacts tok = some art := by
  cases h with
  | validate vf s tokG pw who now =>
      rw [validateOp_artifacts]; exact hres
  | grant vf s tokG pw who now m =>
      rcases grantOp_artifacts_cases vf s tokG pw who now m with hc | ⟨_, hc⟩
      · rw [hc]; exact hres
      · rw [hc]
        have h2 := resolveArtifact_bumpList s.artifacts tok tokG art hres
        rwa [bumpRow_exhausted tokG art hx] at h2

theorem reachable_preserves_exhausted {s s' : EngineState} {tok : String}
    {art : ArtifactRecord} (hres : resolveArtifact s.artifacts tok = some art)
    (hx : art.maxViews ≤ art.currentViews) (h : Reachable s s') :
    resolveArtifact s'.artifacts tok = some art := by
  induction h with
  | refl => exact hres
  | tail _ hstep ih => exact step_preserves_exhausted ih hx hstep

theorem grantOp_not_granted_of_exhausted {vf : String → String → Bool}
    {s : EngineState} {tok : String} {pw : Option String} {who : Identity}
    {now : Nat} {m : Method} {art : ArtifactRecord}
    (hres : resolveArtifact s.artifacts tok = some art)
    (hx : art.maxViews ≤ art.currentViews) :
    (grantOp vf s tok pw who now m).1.isGranted = false := by
  cases hc : checkPolicy vf s.ledger art pw who now with
  | some r =>
      rw [grantOp_denied_of_policy hres (grantPolicy_of_check_some hc)]
      rfl
  | none => exact absurd hc (checkPolicy_exhausted hx)

theorem validateOp_not_granted_of_exhausted {vf : String → String → Bool}
    {s : EngineState} {tok : String} {pw : Option String} {who : Identity}
    {now : Nat} {art : ArtifactRecord}
    (hres : resolveArtifact s.artifacts tok = some art)
    (hx : art.maxViews ≤ art.currentViews) :
    (validateOp vf s tok pw who now).1.isGranted = false := by
  cases hc : checkPolicy vf s.ledger art pw who now with
  | some r => rw [validateOp_denied_of_check hres hc]; rfl
  | none => exact absurd hc (checkPolicy_exhausted hx)

theorem resolveArtifact_token {l : List ArtifactRecord} {tok : String}
    {art : ArtifactRecord} (h : resolveArtifact l tok = some art) :
    (art.token == tok) = true := by
  unfold resolveArtifact at h
  cases hf : l.find? (fun a => a.token == tok) with
  | none => simp [hf] at h
  | some a =>
      simp only [hf] at h
      by_cases hd : a.deleted = true
      · simp [hd] at h
      · rw [if_neg hd] at h
        have hp := List.find?_some hf
        rwa [Option.some_injective _ h] at hp

theorem bumpRow_self {tok : String} {art : ArtifactRecord}
    (htok : (art.token == tok) = true) (hv : art.currentViews < art.maxViews) :
    bumpRow tok art = { art with currentViews := art.currentViews + 1 } := by
  unfold bumpRow condBump
  rw [if_pos htok, if_pos hv]

theorem countsForConsumer_iff (e : AccessLogEntry) (tok : String)
    (who : Identity) :
    countsForConsumer e tok who = true ↔
      e.artifact = tok ∧ e.identity = who ∧ e.granted = true ∧
        (e.method = Method.view ∨ e.method = Method.download) := by
  simp [countsForConsumer, and_assoc]

theorem checkPolicy_eq_firstFailure (vf : String → String → Bool)
    (ledger : List AccessLogEntry) (art : ArtifactRecord) (pw : Option String)
    (who : Identity) (now : Nat) :
    checkPolicy vf ledger art pw who now
      = firstFailure (orderedChecks vf ledger art pw who now) := by
  unfold checkPolicy orderedChecks
  cases hpw : passwordFails vf art pw <;>
    split_ifs with h1 h2 h3 <;>
      simp_all [firstFailure, Bool.not_eq_true, Nat.not_le] <;>
        split_ifs <;> first | rfl | omega | simp_all

theorem checkPolicy_no_consumer_denial {vf : String → String → Bool}
    {ledger : List AccessLogEntry} {art : ArtifactRecord} {pw : Option String}
    {who : Identity} {now : Nat} (h0 : art.maxViewsPerConsumer = 0) :
    checkPolicy vf ledger art pw who now ≠ some .consumerQuotaExhausted := by
  have hfalse : hasConsumerExceededLimit art ledger who = false := by
    simp [hasConsumerExceededLimit, h0]
  unfold checkPolicy
  cases hpw : passwordFails vf art pw <;>
    split_ifs <;> simp_all

/-- C1: at every state reachable by validate/grant operations from a state
satisfying the view-quota invariant, current_views <= max_views holds for
every artifact; and once an artifact has current_views = max_views it is
terminally exhausted — after any further sequence of operations, no grant
(with any method: serve, view or download) and no validate call for it is
ever granted again, regardless of its other policy attributes. -/
theorem views_quota_invariant_exhausted_terminal
    (s0 s : EngineState) (h0 : viewsInv s0.artifacts) (hr : Reachable s0 s) :
    viewsInv s.artifacts ∧
    ∀ tok art, resolveArtifact s.artifacts tok = some art →
      art.currentViews = art.maxViews →
      ∀ s', Reachable s s' →
        (∀ vf pw who now m, (grantOp vf s' tok pw who now m).1.isGranted = false) ∧
        (∀ vf pw who now, (validateOp vf s' tok pw who now).1.isGranted = false) := by
  refine ⟨reachable_viewsInv hr h0, ?_⟩
  intro tok art hres hx s' hr2
  have hx2 : art.maxViews ≤ art.currentViews := by omega
  have hres2 := reachable_preserves_exhausted hres hx2 hr2
  exact ⟨fun vf pw who now m => grantOp_not_granted_of_exhausted hres2 hx2,
    fun vf pw who now => validateOp_not_granted_of_exhausted hres2 hx2⟩

/-- Witness for C1: the concrete exhausted one-view artifact satisfies the
invariant and a further grant for it is not granted. -/
theorem views_quota_invariant_exhausted_terminal_witness :
    viewsInv c2State.artifacts ∧
    (grantOp cVf c2State "t0" none (.anonymous "9.9.9.9") 1000 .view).1.isGranted
      = false := by
  have h := views_quota_invariant_exhausted_terminal c2State c2State
    (by unfold viewsInv; decide) Relation.ReflTransGen.refl
  refine ⟨h.1, ?_⟩
  exact (h.2 "t0" c2Art (by decide) (by decide) c2State
    Relation.ReflTransGen.refl).1 cVf none (.anonymous "9.9.9.9") 1000 .view

/-- C2 counterexample: the claim says a repeat grant(view) inside the
session window is granted without incrementing, for every artifact.  At
the section 8 scenario state of the spec itself (max_views = 1 already consumed
by this identity, still inside the 15-minute window) the re-run of the
full check set denies the in-session repeat with quota_exhausted, so it
is not granted. -/
theorem grant_session_hit_denied_when_quota_exhausted :
    isWithinActiveSession c2State.ledger c2Art (.anonymous "9.9.9.9") 300 = true ∧
    consumerViewCount c2State.ledger "t0" (.anonymous "9.9.9.9") = 1 ∧
    c2Art.currentViews = 1 ∧ c2Art.maxViews = 1 ∧
    (grantOp cVf c2State "t0" none (.anonymous "9.9.9.9") 300 .view).1
      = .denied .quotaExhausted := by decide

/-- C2 (amended): while the identity is within an active session for the
artifact, grant(view) never increments current_views, and when the full
policy check set also passes the outcome is a granted session hit; when
no session is active and the policy checks pass, grant(view) is granted
and increments current_views by exactly one. -/
theorem grant_session_window_increment_behavior
    (vf : String → String → Bool) (s : EngineState) (tok : String)
    (pw : Option String) (who : Identity) (now : Nat) (art : ArtifactRecord)
    (hres : resolveArtifact s.artifacts tok = some art) :
    (isWithinActiveSession s.ledger art who now = true →
       (grantOp vf s tok pw who now .view).2.artifacts = s.artifacts ∧
       (grantPolicy vf s.ledger art pw who now .view = none →
          (grantOp vf s tok pw who now .view).1
            = .granted true (capabilityFor tok .view now))) ∧
    (isWithinActiveSession s.ledger art who now = false →
       grantPolicy vf s.ledger art pw who now .view = none →
       (grantOp vf s tok pw who now .view).1
           = .granted false (capabilityFor tok .view now) ∧
       resolveArtifact (grantOp vf s tok pw who now .view).2.artifacts tok
           = some { art with currentViews := art.currentViews + 1 }) := by
  constructor
  · intro hs
    constructor
    · cases hp : grantPolicy vf s.ledger art pw who now .view with
      | some r => rw [grantOp_denied_of_policy hres hp]; rfl
      | none => rw [grantOp_sessionHit hres hp hs]; rfl
    · intro hp
      rw [grantOp_sessionHit hres hp hs]
  · intro hs hp
    have hv : art.currentViews < art.maxViews :=
      checkPolicy_none_views (checkPolicy_of_grantPolicy_none hp)
    rw [grantOp_countedNew hres hp hs]
    refine ⟨rfl, ?_⟩
    show resolveArtifact (bumpList s.artifacts tok) tok = _
    have h2 := resolveArtifact_bumpList s.artifacts tok tok art hres
    rwa [bumpRow_self (resolveArtifact_token hres) hv] at h2

/-- Witness for C2 (amended): a concrete in-session repeat is granted as a
session hit and leaves the artifact store unchanged. -/
theorem grant_session_window_increment_behavior_witness :
    (grantOp cVf c7StateB "t7" none (.authenticated 7) 100 .view).1
      = .granted true (capabilityFor "t7" .view 100) ∧
    (grantOp cVf c7StateB "t7" none (.authenticated 7) 100 .view).2.artifacts
      = c7StateB.artifacts := by
  have h := grant_session_window_increment_behavior cVf c7StateB "t7" none
    (.authenticated 7) 100 c7Art (by decide)
  have h1 := h.1 (by decide)
  exact ⟨h1.2 (by decide), h1.1⟩

/-- C3: for every validate or grant call the policy verdict equals the
ordered first-failure pipeline (unknown/soft-deleted token first, then
inactive, expired, global quota, password, sign-in, per-consumer quota,
in that order, the first failing check fixing the denial reason); a
validate call never mutates the artifact store, and a grant call whose
outcome is a denial leaves the artifact store unchanged as well. -/
theorem validate_checks_fixed_order_first_failure
    (vf : String → String → Bool) (s : EngineState) (tok : String)
    (pw : Option String) (who : Identity) (now : Nat) (m : Method) :
    validateResult vf s tok pw who now = specOrderedValidate vf s tok pw who now ∧
    (validateOp vf s tok pw who now).2.artifacts = s.artifacts ∧
    (∀ r, (grantOp vf s tok pw who now m).1 = .denied r →
       (grantOp vf s tok pw who now m).2.artifacts = s.artifacts) := by
  refine ⟨?_, validateOp_artifacts vf s tok pw who now, ?_⟩
  · unfold validateResult specOrderedValidate
    cases hres : resolveArtifact s.artifacts tok with
    | none => rfl
    | some art => exact checkPolicy_eq_firstFailure vf s.ledger art pw who now
  · intro r hdenied
    rcases grantOp_artifacts_cases vf s tok pw who now m with hc | ⟨hout, _⟩
    · exact hc
    · rw [hdenied] at hout
      exact absurd hout (by simp)

/-- Witness for C3: at a concrete state whose artifact is inactive the
pipeline denies with inactive and the denied grant mutates nothing. -/
theorem validate_checks_fixed_order_first_failure_witness :
    validateResult cVf c2State "missing" none (.anonymous "1.1.1.1") 0
      = specOrderedValidate cVf c2State "missing" none (.anonymous "1.1.1.1") 0 ∧
    (grantOp cVf c2State "missing" none (.anonymous "1.1.1.1") 0 .view).2.artifacts
      = c2State.artifacts := by
  have h := validate_checks_fixed_order_first_failure cVf c2State "missing" none
    (.anonymous "1.1.1.1") 0 .view
  exact ⟨h.1, h.2.2 .notFound (by decide)⟩

/-- C4: a validate call — singly or iterated any number of times, with any
arguments, in any state, whatever its outcome — leaves the artifact store
(and hence every current_views counter) unchanged; only the grant/serve
path ever changes it, and then only by the conditional increment on a
granted counted-new outcome. -/
theorem validate_never_mutates_views (vf : String → String → Bool)
    (s : EngineState) (tok : String) (pw : Option String) (who : Identity)
    (now : Nat) :
    (validateOp vf s tok pw who now).2.artifacts = s.artifacts ∧
    (∀ calls : List ValidateCall,
       (applyValidates vf calls s).artifacts = s.artifacts) ∧
    (∀ m, (grantOp vf s tok pw who now m).2.artifacts = s.artifacts ∨
       ((grantOp vf s tok pw who now m).1
           = .granted false (capabilityFor tok m now) ∧
        (grantOp vf s tok pw who now m).2.artifacts = bumpList s.artifacts tok)) :=
  ⟨validateOp_artifacts vf s tok pw who now,
   fun calls => applyValidates_artifacts vf calls s,
   fun m => grantOp_artifacts_cases vf s tok pw who now m⟩

/-- C5: consumerViewCount counts exactly the ledger rows of the
(artifact, identity) pair that are granted with method view or download —
denied attempts and validate-method rows never change it;
hasConsumerExceededLimit holds exactly when max_views_per_consumer > 0
and the count has reached it; with max_views_per_consumer = 0 the
per-consumer check never denies; and rows of a different identity change
neither the count nor the limit status of this identity. -/
theorem consumer_view_count_and_limit_properties :
    (∀ (e : AccessLogEntry) (L : List AccessLogEntry) (tok : String) (who : Identity),
       consumerViewCount (e :: L) tok who =
         consumerViewCount L tok who +
           (if e.artifact = tok ∧ e.identity = who ∧ e.granted = true ∧
               (e.method = Method.view ∨ e.method = Method.download)
            then 1 else 0)) ∧
    (∀ (e : AccessLogEntry) (L : List AccessLogEntry) (tok : String) (who : Identity),
       e.granted = false →
       consumerViewCount (e :: L) tok who = consumerViewCount L tok who) ∧
    (∀ (e : AccessLogEntry) (L : List AccessLogEntry) (tok : String) (who : Identity),
       e.method = Method.validate →
       consumerViewCount (e :: L) tok who = consumerViewCount L tok who) ∧
    (∀ (art : ArtifactRecord) (L : List AccessLogEntry) (who : Identity),
       hasConsumerExceededLimit art L who = true ↔
         0 < art.maxViewsPerConsumer ∧
           art.maxViewsPerConsumer ≤ consumerViewCount L art.token who) ∧
    (∀ (vf : String → String → Bool) (ledger : List AccessLogEntry)
       (art : ArtifactRecord) (pw : Option String) (who : Identity) (now : Nat),
       art.maxViewsPerConsumer = 0 →
       checkPolicy vf ledger art pw who now ≠ some .consumerQuotaExhausted) ∧
    (∀ (art : ArtifactRecord) (e : AccessLogEntry) (L : List AccessLogEntry)
       (who : Identity), e.identity ≠ who →
       consumerViewCount (e :: L) art.token who = consumerViewCount L art.token who ∧
       hasConsumerExceededLimit art (e :: L) who = hasConsumerExceededLimit art L who) := by
  have hcons : ∀ (e : AccessLogEntry) (L : List AccessLogEntry) (tok : String)
      (who : Identity), countsForConsumer e tok who = false →
      consumerViewCount (e :: L) tok who = consumerViewCount L tok who := by
    intro e L tok who hf
    unfold consumerViewCount
    rw [List.filter_cons, if_neg (by simp [hf])]
  refine ⟨?_, ?_, ?_, ?_, ?_, ?_⟩
  · intro e L tok who
    unfold consumerViewCount
    rw [List.filter_cons]
    by_cases h : countsForConsumer e tok who = true
    · rw [if_pos h, if_pos ((countsForConsumer_iff e tok who).mp h)]
      simp [Nat.add_comm]
    · rw [if_neg h, if_neg (fun hc => h ((countsForConsumer_iff e tok who).mpr hc))]
      simp
  · intro e L tok who hg
    exact hcons e L tok who (by simp [countsForConsumer, hg])
  · intro e L tok who hm
    exact hcons e L tok who (by simp [countsForConsumer, hm])
  · intro art L who
    simp [hasConsumerExceededLimit]
  · intro vf ledger art pw who now h0
    exact checkPolicy_no_consumer_denial h0
  · intro art e L who hne
    have hb : (e.identity == who) = false := by
      simp only [beq_eq_false_iff_ne, ne_eq]
      exact hne
    have hcount := hcons e L art.token who (by simp [countsForConsumer, hb])
    exact ⟨hcount, by simp [hasConsumerExceededLimit, hcount]⟩

/-- Witness for C5: a denied row does not change the count, and the
per-consumer check never fires on an artifact with limit 0. -/
theorem consumer_view_count_and_limit_properties_witness :
    consumerViewCount
        ({ artifact := "t7", timestamp := 5, identity := .authenticated 7,
           method := .view, granted := false,
           reason := some .quotaExhausted } :: c7StateB.ledger)
        "t7" (.authenticated 7)
      = consumerViewCount c7StateB.ledger "t7" (.authenticated 7) ∧
    checkPolicy cVf c2State.ledger c2Art none (.authenticated 7) 0
      ≠ some .consumerQuotaExhausted := by
  have h := consumer_view_count_and_limit_properties
  exact ⟨h.2.1 _ c7StateB.ledger "t7" (.authenticated 7) rfl,
    h.2.2.2.2.1 cVf c2State.ledger c2Art none (.authenticated 7) 0 (by decide)⟩

/-- C6: on an artifact with a password hash (with the earlier checks
passing), a validate with no password is denied passwordRequired with
the missing detail, a validate whose password fails verification is
denied passwordRequired with the incorrect detail, a grant with no
password is denied the same way; both cases share the denial class and
the 401 status, and differ only in the detail — the missing case omits
the incorrect hint, the wrong case carries it. -/
theorem password_denial_missing_vs_incorrect
    (vf : String → String → Bool) (s : EngineState) (tok : String)
    (who : Identity) (now : Nat) (art : ArtifactRecord) (h p : String)
    (m : Method)
    (hres : resolveArtifact s.artifacts tok = some art)
    (hph : art.passwordHash = some h)
    (hact : art.active = true)
    (hexp : expiredAt art now = false)
    (hq : art.currentViews < art.maxViews) :
    validateResult vf s tok none who now = some (.passwordRequired .missing) ∧
    (vf p h = false →
       validateResult vf s tok (some p) who now
         = some (.passwordRequired .incorrect)) ∧
    (grantOp vf s tok none who now m).1 = .denied (.passwordRequired .missing) ∧
    httpStatus (.passwordRequired .missing) = 401 ∧
    httpStatus (.passwordRequired .incorrect) = 401 ∧
    reasonClass (.passwordRequired .missing)
      = reasonClass (.passwordRequired .incorrect) ∧
    passwordHint .missing = none ∧
    passwordHint .incorrect = some "incorrect" := by
  have hnle : ¬ art.maxViews ≤ art.currentViews := by omega
  have hna : ¬ art.active = false := by simp [hact]
  have hne : ¬ expiredAt art now = true := by simp [hexp]
  have hc1 : checkPolicy vf s.ledger art none who now
      = some (.passwordRequired .missing) := by
    unfold checkPolicy
    rw [if_neg hna, if_neg hne, if_neg hnle]
    simp [passwordFails, hph]
  refine ⟨?_, ?_, ?_, rfl, rfl, rfl, rfl, rfl⟩
  · unfold validateResult
    rw [hres]
    exact hc1
  · intro hvf
    have hc2 : checkPolicy vf s.ledger art (some p) who now
        = some (.passwordRequired .incorrect) := by
      unfold checkPolicy
      rw [if_neg hna, if_neg hne, if_neg hnle]
      simp [passwordFails, hph, hvf]
    unfold validateResult
    rw [hres]
    exact hc2
  · rw [grantOp_denied_of_policy hres (grantPolicy_of_check_some hc1)]

/-- Witness for C6: concrete missing-password and wrong-password denials. -/
theorem password_denial_missing_vs_incorrect_witness :
    validateResult cVf c6State "t6" none (.anonymous "2.2.2.2") 0
      = some (.passwordRequired .missing) ∧
    validateResult cVf c6State "t6" (some "wrong") (.anonymous "2.2.2.2") 0
      = some (.passwordRequired .incorrect) := by
  have h := password_denial_missing_vs_incorrect cVf c6State "t6"
    (.anonymous "2.2.2.2") 0 c6Art "secret" "wrong" .view
    (by decide) (by decide) (by decide) (by decide) (by decide)
  exact ⟨h.1, h.2.1 (by decide)⟩

/-- C7 counterexample: the claim says the successful validate response
contains the remaining consumer views.  Two states that differ in the
granted-view count of the consumer (0 versus 1 of a limit of 3) produce
identical successful validate responses, so the response carries no
remaining-consumer-views information; the source FileAccessResponse
type has no such field. -/
theorem validate_response_lacks_consumer_remaining :
    consumerViewCount c7StateA.ledger "t7" (.authenticated 7)
      ≠ consumerViewCount c7StateB.ledger "t7" (.authenticated 7) ∧
    (validateOp cVf c7StateA "t7" none (.authenticated 7) 100).1.isGranted = true ∧
    (validateOp cVf c7StateB "t7" none (.authenticated 7) 100).1.isGranted = true ∧
    (validateOp cVf c7StateA "t7" none (.authenticated 7) 100).1
      = (validateOp cVf c7StateB "t7" none (.authenticated 7) 100).1 := by decide

/-- C7 (amended): a validate call that passes all checks returns the
read-only summary of the source FileAccessResponse shape — a success
flag (named success, not granted), the remaining global views
(views_remaining), the time remaining and the disable_download flag,
all derived from the artifact alone — and mutates no artifact; the
response contains no remaining-consumer-views field. -/
theorem validate_success_response_summary
    (vf : String → String → Bool) (s : EngineState) (tok : String)
    (pw : Option String) (who : Identity) (now : Nat) (art : ArtifactRecord)
    (hres : resolveArtifact s.artifacts tok = some art)
    (hok : checkPolicy vf s.ledger art pw who now = none) :
    (validateOp vf s tok pw who now).1 = .granted (buildFileAccessResponse art now) ∧
    (buildFileAccessResponse art now).success = true ∧
    (buildFileAccessResponse art now).file.views_remaining
      = art.maxViews - art.currentViews ∧
    (buildFileAccessResponse art now).file.time_remaining = timeRemaining art now ∧
    (buildFileAccessResponse art now).file.disable_download = art.disableDownload ∧
    (validateOp vf s tok pw who now).2.artifacts = s.artifacts := by
  refine ⟨?_, rfl, rfl, rfl, rfl, validateOp_artifacts vf s tok pw who now⟩
  rw [validateOp_granted_of_check hres hok]

/-- Witness for C7 (amended): a concrete successful validate returns the
summary built from the artifact. -/
theorem validate_success_response_summary_witness :
    (validateOp cVf c7StateA "t7" none (.authenticated 7) 100).1
      = .granted (buildFileAccessResponse c7Art 100) :=
  (validate_success_response_summary cVf c7StateA "t7" none (.authenticated 7)
    100 c7Art (by decide) (by decide)).1

/-- C8: on an artifact with disable_download set, a grant with method
download is never granted and mutates nothing; when the seven ordered
checks pass, the denial reason is the downloadDisabled policy rejection
issued at the policy stage (before any session resolution, counter
mutation or capability issuance); the view method is untouched — its
grant policy equals the plain check set, which never reads the
disable_download flag. -/
theorem disable_download_policy_denial
    (vf : String → String → Bool) (s : EngineState) (tok : String)
    (pw : Option String) (who : Identity) (now : Nat) (art : ArtifactRecord)
    (hres : resolveArtifact s.artifacts tok = some art)
    (hdd : art.disableDownload = true) :
    (grantOp vf s tok pw who now .download).1.isGranted = false ∧
    (grantOp vf s tok pw who now .download).2.artifacts = s.artifacts ∧
    (checkPolicy vf s.ledger art pw who now = none →
       (grantOp vf s tok pw who now .download).1 = .denied .downloadDisabled) ∧
    grantPolicy vf s.ledger art pw who now .view
      = checkPolicy vf s.ledger art pw who now ∧
    (∀ b, checkPolicy vf s.ledger { art with disableDownload := b } pw who now
      = checkPolicy vf s.ledger art pw who now) := by
  have key : ∃ r, grantPolicy vf s.ledger art pw who now .download = some r := by
    cases hc : checkPolicy vf s.ledger art pw who now with
    | some r => exact ⟨r, grantPolicy_of_check_some hc⟩
    | none =>
        refine ⟨.downloadDisabled, ?_⟩
        unfold grantPolicy
        rw [hc]
        simp [hdd]
  obtain ⟨r, hgp⟩ := key
  have heq := grantOp_denied_of_policy hres hgp
  refine ⟨by rw [heq]; rfl, by rw [heq]; rfl, ?_,
    grantPolicy_view vf s.ledger art pw who now, fun b => rfl⟩
  intro hok
  have hgp2 : grantPolicy vf s.ledger art pw who now .download
      = some .downloadDisabled := by
    unfold grantPolicy
    rw [hok]
    simp [hdd]
  rw [grantOp_denied_of_policy hres hgp2]

/-- Witness for C8: the concrete no-download artifact denies download with
the policy reason while a view on it is granted. -/
theorem disable_download_policy_denial_witness :
    (grantOp cVf c8State "t8" none (.anonymous "3.3.3.3") 0 .download).1
      = .denied .downloadDisabled ∧
    (grantOp cVf c8State "t8" none (.anonymous "3.3.3.3") 0 .view).1.isGranted
      = true := by
  have h := disable_download_policy_denial cVf c8State "t8" none
    (.anonymous "3.3.3.3") 0 c8Art (by decide) (by decide)
  exact ⟨h.2.2.1 (by decide), by decide⟩

/-- C9: the validate/view/download requests of the public client are identical
whatever tokens the browser storage holds, they never carry an
Authorization header, the backend therefore resolves their identity to
Anonymous, and an artifact with require_signin set is never granted —
neither by validate nor by any grant — to an anonymous identity. -/
theorem public_client_requests_anonymous
    (st st' : ClientStorage) (base : String) (d : FileAccessRequestT)
    (ip : String) (look : String → Option Nat) :
    publicValidateRequest st base d = publicValidateRequest st' base d ∧
    publicViewRequest st base d = publicViewRequest st' base d ∧
    publicDownloadRequest st base d = publicDownloadRequest st' base d ∧
    (publicValidateRequest st base d).authorization = none ∧
    (publicViewRequest st base d).authorization = none ∧
    (publicDownloadRequest st base d).authorization = none ∧
    identityOfRequest look (publicValidateRequest st base d) ip
      = .anonymous ip ∧
    (∀ (vf : String → String → Bool) (s : EngineState) (tok : String)
       (pw : Option String) (now : Nat) (art : ArtifactRecord),
       resolveArtifact s.artifacts tok = some art →
       art.requireSignin = true →
       (validateOp vf s tok pw (Identity.anonymous ip) now).1.isGranted = false ∧
       ∀ m, (grantOp vf s tok pw (Identity.anonymous ip) now m).1.isGranted = false) := by
  refine ⟨rfl, rfl, rfl, rfl, rfl, rfl, rfl, ?_⟩
  intro vf s tok pw now art hres hsi
  have hanon : (Identity.anonymous ip).isAnonymous = true := rfl
  constructor
  · cases hc : checkPolicy vf s.ledger art pw (Identity.anonymous ip) now with
    | some r => rw [validateOp_denied_of_check hres hc]; rfl
    | none => exact absurd hc (checkPolicy_signin hsi hanon)
  · intro m
    cases hc : checkPolicy vf s.ledger art pw (Identity.anonymous ip) now with
    | some r =>
        rw [grantOp_denied_of_policy hres (grantPolicy_of_check_some hc)]
        rfl
    | none => exact absurd hc (checkPolicy_signin hsi hanon)

/-- Witness for C9: with tokens present in storage the public request
still has no Authorization header, and the concrete require_signin
artifact denies an anonymous validate. -/
theorem public_client_requests_anonymous_witness :
    (publicValidateRequest
        { access_token := some "tk", refresh_token := some "r" } "http://b"
        { access_token := "t9", password := none }).authorization = none ∧
    (validateOp cVf c9State "t9" none (.anonymous "4.4.4.4") 0).1.isGranted
      = false := by
  have h := public_client_requests_anonymous
    { access_token := some "tk", refresh_token := some "r" }
    { access_token := none, refresh_token := none } "http://b"
    { access_token := "t9", password := none } "4.4.4.4" (fun _ => none)
  exact ⟨h.2.2.2.1,
    (h.2.2.2.2.2.2.2 cVf c9State "t9" none 0 c9Art (by decide) (by decide)).1⟩

/-- C10: filesAPI.list always resolves with an array — a failed request
resolves with the empty array; an object body whose results field is an
array resolves with that field, and with the empty array when the field
is not an array; an array body resolves with itself; any other body
resolves with the empty array. -/
theorem files_list_always_resolves_array :
    (∀ e, filesList (.error e) = []) ∧
    (∀ xs, filesList (.ok (.arr xs)) = xs) ∧
    (∀ fields xs, getKey (.obj fields) "results" = .arr xs →
       filesList (.ok (.obj fields)) = xs) ∧
    (∀ fields, hasKey (.obj fields) "results" = true →
       isArray (getKey (.obj fields) "results") = false →
       filesList (.ok (.obj fields)) = []) ∧
    (∀ v, isArray v = false → hasKey v "results" = false →
       filesList (.ok v) = []) := by
  have hkey : ∀ (fields : List (String × JsVal)) (xs : List JsVal),
      getKey (.obj fields) "results" = .arr xs →
      hasKey (.obj fields) "results" = true := by
    intro fields xs hget
    unfold getKey at hget
    cases hf : fields.find? (fun f => f.1 == "results") with
    | none => simp [hf] at hget
    | some f =>
        unfold hasKey
        have hp := List.find?_some hf
        exact List.any_eq_true.mpr ⟨f, List.mem_of_find?_eq_some hf, hp⟩
  refine ⟨fun e => rfl, fun xs => rfl, ?_, ?_, ?_⟩
  · intro fields xs hget
    have hk := hkey fields xs hget
    simp [filesList, filesListOfData, truthy, typeofObject, hk, hget,
      isArray, asArray]
  · intro fields hk hna
    simp [filesList, filesListOfData, truthy, typeofObject, hk, hna]
  · intro v hna hnk
    cases v with
    | null => rfl
    | undefined => rfl
    | bool b => simp [filesList, filesListOfData, truthy, typeofObject, isArray, hasKey]
    | num n => simp [filesList, filesListOfData, truthy, typeofObject, isArray, hasKey]
    | str s => simp [filesList, filesListOfData, truthy, typeofObject, isArray, hasKey]
    | arr xs => simp [isArray] at hna
    | obj fields =>
        simp [filesList, filesListOfData, truthy, typeofObject, hnk, isArray]

/-- Witness for C10: concrete paginated, malformed and null bodies. -/
theorem files_list_always_resolves_array_witness :
    filesList (.ok (.obj [("results", .arr [.str "f1"])])) = [.str "f1"] ∧
    filesList (.ok (.obj [("results", .str "nope")])) = [] ∧
    filesList (.ok .null) = [] := by
  have h := files_list_always_resolves_array
  exact ⟨h.2.2.1 _ _ rfl, h.2.2.2.1 _ rfl rfl, h.2.2.2.2 _ rfl rfl⟩

end VaultShare
